import Mathlib

/-!
Verification development for the become-image predictor pipeline
(`predict.py`).  The Python module is shallowly embedded: JSON values
become an inductive type, Python dicts become association lists (keys are
unique in any dict parsed from JSON; updates rewrite the first binding),
in-place mutation becomes explicit state passing, exceptions become
`Except`, and the external collaborators (safety classifier, random
number generator, generation engine) become oracle fields of an
environment record.  Filesystem and engine side effects are recorded in
an explicit event trace.
-/

/-- Source constant `OUTPUT_DIR` (predict.py line 11). -/
def OUTPUT_DIR : String := "/tmp/outputs"

/-- Source constant `INPUT_DIR` (predict.py line 12). -/
def INPUT_DIR : String := "/tmp/inputs"

/-- Source constant `COMFYUI_TEMP_OUTPUT_DIR` (predict.py line 13). -/
def COMFYUI_TEMP_OUTPUT_DIR : String := "ComfyUI/temp"

/-- A JSON scalar value as stored in the workflow graph: strings,
Python ints, and Python floats (modelled as rationals; the pipeline only
stores parameters into fields and never performs float arithmetic). -/
inductive JVal where
  | str (s : String)
  | int (n : Int)
  | num (q : ℚ)
  deriving DecidableEq

/-- One workflow node; the code only ever touches the "inputs" mapping
of a node (`workflow[node]["inputs"]`), so only that mapping is
modelled. -/
structure Node where
  inputs : List (String × JVal)
  deriving DecidableEq

/-- A workflow graph: mapping from node identifier to node, as parsed
from the JSON template. -/
abbrev Workflow := List (String × Node)

/-- Dict lookup `d[k]` returning `none` when the key is absent. -/
def getVal {α : Type} : List (String × α) → String → Option α
  | [], _ => none
  | (k2, w) :: l, k => if k2 = k then some w else getVal l k

/-- Dict assignment `d[k] = v`: rewrite the binding of `k` in place when
present (Python dicts keep the key's position), append otherwise. -/
def setVal {α : Type} : List (String × α) → String → α → List (String × α)
  | [], k, v => [(k, v)]
  | (k2, w) :: l, k, v =>
    if k2 = k then (k2, v) :: l else (k2, w) :: setVal l k v

/-- In-place update of the value at key `k` by `f`; a missing key is a
Python `KeyError`, modelled as `Except.error k`.  This is the shape of
`workflow["22"]["inputs"]` followed by field assignments. -/
def modVal {α : Type} : List (String × α) → String → (α → α) → Except String (List (String × α))
  | [], k, _ => .error k
  | (k2, w) :: l, k, f =>
    if k2 = k then .ok ((k2, f w) :: l)
    else (modVal l k f).map (fun l2 => (k2, w) :: l2)

/-- Lookup of one input field of one node:
`workflow[node]["inputs"][field]`. -/
def getInput (wf : Workflow) (node field : String) : Option JVal :=
  (getVal wf node).bind (fun n => getVal n.inputs field)

/-- The keyword arguments passed to `update_workflow`
(predict.py lines 202-216). -/
structure WParams where
  filename : String
  image_to_become_filename : String
  prompt : String
  negative_prompt : String
  number_of_images : Int
  prompt_strength : ℚ
  control_depth_strength : ℚ
  instant_id_strength : ℚ
  image_to_become_strength : ℚ
  image_to_become_noise : ℚ
  denoising_strength : ℚ
  seed : Int
  deriving DecidableEq

/-- The negative-prompt text written into the loader node
(predict.py lines 92-97); the Python truthiness test `if negative_prompt`
on a string is the non-emptiness test. -/
def negText (negative_prompt : String) : JVal :=
  if negative_prompt ≠ ("") then
    .str (("nsfw, nude, ") ++ negative_prompt ++ (", soft, blurry, ugly, broken, watermark"))
  else .str ("nsfw, nude, soft, blurry, ugly, broken, watermark")

/-- `Predictor.update_workflow` (predict.py lines 79-115).  The Python
method mutates the `workflow` dict in place and returns `None`; the
embedding returns the state of the `workflow` argument after the call.
A missing node identifier is a `KeyError` (`Except.error`). -/
def update_workflow (workflow : Workflow) (p : WParams) : Except String Workflow :=
  Except.bind (modVal workflow ("22") (fun n =>
      ⟨setVal n.inputs ("image") (.str p.filename)⟩)) (fun w1 =>
  Except.bind (modVal w1 ("83") (fun n =>
      ⟨setVal n.inputs ("image") (.str p.image_to_become_filename)⟩)) (fun w2 =>
  Except.bind (modVal w2 ("2") (fun n =>
      ⟨setVal (setVal n.inputs ("positive") (.str (p.prompt ++ (", sharp, high quality"))))
        ("negative") (negText p.negative_prompt)⟩)) (fun w3 =>
  Except.bind (modVal w3 ("79") (fun n =>
      ⟨setVal n.inputs ("strength") (.num p.control_depth_strength)⟩)) (fun w4 =>
  Except.bind (modVal w4 ("41") (fun n =>
      ⟨setVal n.inputs ("weight") (.num p.instant_id_strength)⟩)) (fun w5 =>
  Except.bind (modVal w5 ("81") (fun n =>
      ⟨setVal (setVal n.inputs ("weight") (.num p.image_to_become_strength))
        ("noise") (.num p.image_to_become_noise)⟩)) (fun w6 =>
  Except.bind (modVal w6 ("75") (fun n =>
      ⟨setVal (setVal (setVal n.inputs ("denoise") (.num p.denoising_strength))
        ("seed") (.int p.seed)) ("cfg") (.num p.prompt_strength)⟩)) (fun w7 =>
  modVal w7 ("85") (fun n =>
      ⟨setVal n.inputs ("multiply_by") (.int p.number_of_images)⟩))))))))

/-- An uploaded input file: its filename extension (as produced by
`os.path.splitext`, leading dot included) and, for JPEGs, the EXIF tag
dictionary returned by `image.getexif` — `none` models an image object
without EXIF data (Python `AttributeError` on `_getexif`). -/
structure InputFile where
  ext : String
  exif : Option (List (Nat × Nat))
  deriving DecidableEq

/-- The EXIF tag id whose registered name is "Orientation"; the loop in
predict.py lines 40-42 scans `ExifTags.TAGS` for it, and that table maps
274 to "Orientation". -/
def orientationTag : Nat := 274

/-- Lookup in a Nat-keyed dict (first binding), mirroring
`dict(image.getexif .items())[orientation]`. -/
def getVal2 : List (Nat × Nat) → Nat → Option Nat
  | [], _ => none
  | (k2, w) :: l, k => if k2 = k then some w else getVal2 l k

/-- The orientation value of an EXIF dictionary: `none` when there is no
EXIF data (AttributeError) or the tag is absent (KeyError), both caught
by the handler at predict.py line 51. -/
def orientationOf (exif : Option (List (Nat × Nat))) : Option Nat :=
  exif.bind (fun m => getVal2 m orientationTag)

/-- The corrective rotation (in degrees, counter-clockwise as in PIL
`Image.rotate`) applied to a JPEG before saving
(predict.py lines 45-54): 180 for orientation 3, 270 for 6, 90 for 8,
none otherwise. -/
def jpegRotation (exif : Option (List (Nat × Nat))) : Nat :=
  match orientationOf exif with
  | none => 0
  | some v => if v = 3 then 180 else if v = 6 then 270 else if v = 8 then 90 else 0

/-- One file written into the input workspace: its final name and the
corrective rotation baked into the saved pixels (0 for a byte-for-byte
copy). -/
structure WriteRec where
  name : String
  rotation : Nat
  deriving DecidableEq

/-- Python `str.lower` restricted to what the predictor needs: the
ASCII lowering of a filename extension (`os.path.splitext(...)[1].lower()`
at predict.py line 34). -/
def strLower (s : String) : String := ⟨s.data.map Char.toLower⟩

/-- `Predictor.handle_input_file` (predict.py lines 33-63).  Returns the
result of the call (`final_filename`, or the `ValueError` message for an
unsupported extension) together with the list of files written into the
input workspace by the call. -/
def handle_input_file (f : InputFile) (filename : String) :
    Except String String × List WriteRec :=
  let ext := strLower f.ext
  if ext = (".jpg") ∨ ext = (".jpeg") then
    (.ok (filename ++ (".png")), [⟨filename ++ (".png"), jpegRotation f.exif⟩])
  else if ext = (".png") ∨ ext = (".webp") then
    (.ok (filename ++ ext), [⟨filename ++ ext, 0⟩])
  else
    (.error (("Unsupported file type: ") ++ ext), [])

/-- A directory tree entry, as seen by `os.listdir`: the listing order
of each directory level is the order of the `children` list. -/
inductive FSEntry where
  | file (name : String)
  | dir (name : String) (children : List FSEntry)

/-- `Predictor.log_and_collect_files` (predict.py lines 65-77): walk the
children of the directory whose path components are `d`, skipping every
entry named `__MACOSX`, collecting file paths in listing order and
recursing into subdirectories pre-order.  Paths are modelled as their
`os.path.join` component lists. -/
def collectList : List String → List FSEntry → List (List String)
  | _, [] => []
  | d, FSEntry.file n :: es =>
    if n = ("__MACOSX") then collectList d es
    else (d ++ [n]) :: collectList d es
  | d, FSEntry.dir n cs :: es =>
    if n = ("__MACOSX") then collectList d es
    else collectList (d ++ [n]) cs ++ collectList d es

/-- The Python list comprehension
`[f for i, f in enumerate(files) if not has_nsfw_content[i]]`
(predict.py line 233): index `i` out of range of the flag list is a
Python `IndexError`, modelled as `none`. -/
def dropFlagged {α : Type} : List α → List Bool → Option (List α)
  | [], _ => some []
  | _ :: _, [] => none
  | f :: fs, b :: bs =>
    (dropFlagged fs bs).map (fun r => if b then r else f :: r)

/-- The post-generation safety screen (predict.py lines 229-235): skipped
when the checker is disabled, otherwise the collected files are filtered
by the flags when any flag is set. -/
def postScreen {α : Type} (disable : Bool) (flags : List Bool) (files : List α) :
    Option (List α) :=
  if disable then some files
  else if flags.any id then dropFlagged files flags
  else some files

/-- Observable side effects of one predict call, in order of
occurrence. -/
inductive Event where
  | clearQueue
  | resetDir (dir : String)
  | writeInput (name : String)
  | engineLoadWorkflow (wf : Workflow)
  | engineConnect
  | engineRunWorkflow
  deriving DecidableEq

/-- The errors a predict call can raise. -/
inductive PredictError where
  | valueError (msg : String)
  | keyError (key : String)
  | indexError
  deriving DecidableEq

/-- The mutable state touched by a predict call: the engine's queued
work and the contents of the three workspace directories. -/
structure SysState where
  queue : List Nat
  inputDir : List String
  outputTree : List FSEntry
  tempTree : List FSEntry

/-- The state left by `Predictor.cleanup`: queue cleared, all three
directories wiped and recreated empty. -/
def cleanedState : SysState :=
  { queue := [], inputDir := [], outputTree := [], tempTree := [] }

/-- The side effects of `Predictor.cleanup` (predict.py lines 26-31), in
source order: `clear_queue`, then `rmtree` + `makedirs` of `OUTPUT_DIR`,
`INPUT_DIR`, `COMFYUI_TEMP_OUTPUT_DIR`. -/
def cleanupEvents : List Event :=
  [.clearQueue, .resetDir OUTPUT_DIR, .resetDir INPUT_DIR,
   .resetDir COMFYUI_TEMP_OUTPUT_DIR]

/-- `Predictor.cleanup` (predict.py lines 26-31): unconditionally resets
the queue and the three directories, whatever their prior contents. -/
def cleanup (_s : SysState) : SysState × List Event :=
  (cleanedState, cleanupEvents)

/-- The missing-image error message built at predict.py lines 179-184:
`"No " + " and ".join(missing_images) + " provided"`. -/
def missingMsg (img imgB : Option InputFile) : String :=
  ("No ") ++ String.intercalate (" and ")
    ((if img.isNone then [("image")] else []) ++
     (if imgB.isNone then [("image_to_become")] else [])) ++ (" provided")

/-- Seed resolution (predict.py lines 197-199): a supplied seed is used
exactly; otherwise the value produced by
`random.randint(0, 2**32 - 1)` — supplied here as the oracle value
`rngVal`. -/
def resolveSeed (seed : Option Int) (rngVal : Nat) : Int :=
  match seed with
  | some s => s
  | none => (rngVal : Int)

/-- The request parameters of `Predictor.predict`
(predict.py lines 117-173). -/
structure Req where
  image : Option InputFile
  image_to_become : Option InputFile
  prompt : String
  negative_prompt : String
  number_of_images : Int
  denoising_strength : ℚ
  prompt_strength : ℚ
  control_depth_strength : ℚ
  instant_id_strength : ℚ
  image_to_become_strength : ℚ
  image_to_become_noise : ℚ
  seed : Option Int
  disable_safety_checker : Bool

/-- The environment of one predict call: the parsed workflow template
(`json.loads(workflow_json)`, freshly parsed each request from the
immutable template string), the safety-classifier oracle for inputs and
outputs, the value drawn by `random.randint`, and the files the engine
writes into the output workspace during `run_workflow`. -/
structure Env where
  template : Workflow
  safetyIn : List InputFile → List Bool
  safetyOut : List (List String) → List Bool
  rngSeed : Nat
  engineOutput : List FSEntry

/-- Assembly of the keyword arguments of the `update_workflow` call at
predict.py lines 202-216. -/
def mkWParams (r : Req) (fn1 fn2 : String) (seed : Int) : WParams :=
  { filename := fn1
    image_to_become_filename := fn2
    prompt := r.prompt
    negative_prompt := r.negative_prompt
    number_of_images := r.number_of_images
    prompt_strength := r.prompt_strength
    control_depth_strength := r.control_depth_strength
    instant_id_strength := r.instant_id_strength
    image_to_become_strength := r.image_to_become_strength
    image_to_become_noise := r.image_to_become_noise
    denoising_strength := r.denoising_strength
    seed := seed }

/-- The body of `Predictor.predict` after the initial `cleanup()` call
(predict.py lines 178-235).  Returns the result, the final state, and
the side effects of this part of the call (the full call prepends the
cleanup events, see `predict`). -/
def predictCore (r : Req) (env : Env) (s : SysState) :
    Except PredictError (List (List String)) × SysState × List Event :=
  match r.image, r.image_to_become with
  | none, none =>
    (.error (.valueError (missingMsg none none)), s, [])
  | none, some i =>
    (.error (.valueError (missingMsg none (some i))), s, [])
  | some i, none =>
    (.error (.valueError (missingMsg (some i) none)), s, [])
  | some img, some imgB =>
    match handle_input_file img ("image_of_face") with
    | (.error m, _) => (.error (.valueError m), s, [])
    | (.ok fn1, w1) =>
      let s1 := { s with inputDir := s.inputDir ++ w1.map WriteRec.name }
      let ev1 := w1.map (fun w => Event.writeInput w.name)
      match handle_input_file imgB ("image_to_become") with
      | (.error m, _) => (.error (.valueError m), s1, ev1)
      | (.ok fn2, w2) =>
        let s2 := { s1 with inputDir := s1.inputDir ++ w2.map WriteRec.name }
        let ev2 := ev1 ++ w2.map (fun w => Event.writeInput w.name)
        if !r.disable_safety_checker && (env.safetyIn [img, imgB]).any id then
          (.error (.valueError ("NSFW content detected in input images")), s2, ev2)
        else
          let sd := resolveSeed r.seed env.rngSeed
          match update_workflow env.template (mkWParams r fn1 fn2 sd) with
          | .error k => (.error (.keyError k), s2, ev2)
          | .ok wfinal =>
            let s3 := { s2 with outputTree := s2.outputTree ++ env.engineOutput }
            let ev3 := ev2 ++
              [.engineLoadWorkflow wfinal, .engineConnect, .engineRunWorkflow]
            let files := collectList [OUTPUT_DIR] s3.outputTree
            match postScreen r.disable_safety_checker (env.safetyOut files) files with
            | some kept => (.ok kept, s3, ev3)
            | none => (.error (.indexError), s3, ev3)

/-- `Predictor.predict` (predict.py lines 117-235): the unconditional
`cleanup()` call followed by the request body. -/
def predict (r : Req) (env : Env) (s : SysState) :
    Except PredictError (List (List String)) × SysState × List Event :=
  let c := cleanup s
  let res := predictCore r env c.1
  (res.1, res.2.1, c.2 ++ res.2.2)

/-! ## Helper lemmas about the dict operations -/

theorem except_bind_ok {ε α β : Type} {x : Except ε α} {g : α → Except ε β} {b : β}
    (h : Except.bind x g = .ok b) : ∃ a, x = .ok a ∧ g a = .ok b := by
  cases x with
  | error e => simp [Except.bind] at h
  | ok a => exact ⟨a, rfl, h⟩

theorem getVal_setVal_self {α : Type} (l : List (String × α)) (k : String) (v : α) :
    getVal (setVal l k v) k = some v := by
  induction l with
  | nil => simp [getVal, setVal]
  | cons a l ih =>
    obtain ⟨k2, w⟩ := a
    by_cases hk : k2 = k
    · simp [getVal, setVal, hk]
    · simp [getVal, setVal, hk, ih]

theorem getVal_setVal_other {α : Type} (l : List (String × α)) (k j : String) (v : α)
    (hj : j ≠ k) : getVal (setVal l k v) j = getVal l j := by
  induction l with
  | nil => simp [getVal, setVal, Ne.symm hj]
  | cons a l ih =>
    obtain ⟨k2, w⟩ := a
    by_cases hk : k2 = k
    · subst hk
      simp [getVal, setVal, Ne.symm hj]
    · by_cases hkj : k2 = j
      · subst hkj
        simp [getVal, setVal, hk, hj]
      · simp [getVal, setVal, hk, hkj, ih]

theorem getVal_modVal_self {α : Type} (l l2 : List (String × α)) (k : String)
    (f : α → α) (h : modVal l k f = .ok l2) :
    ∃ a, getVal l k = some a ∧ getVal l2 k = some (f a) := by
  induction l generalizing l2 with
  | nil => simp [modVal] at h
  | cons hd tl ih =>
    obtain ⟨k2, w⟩ := hd
    by_cases hk : k2 = k
    · simp only [modVal, if_pos hk] at h
      obtain rfl : (k2, f w) :: tl = l2 := by simpa using h
      exact ⟨w, by simp [getVal, hk], by simp [getVal, hk]⟩
    · simp only [modVal, if_neg hk] at h
      cases htl : modVal tl k f with
      | error e => rw [htl] at h; simp [Except.map] at h
      | ok tl2 =>
        rw [htl] at h
        obtain rfl : (k2, w) :: tl2 = l2 := by simpa [Except.map] using h
        obtain ⟨a, ha1, ha2⟩ := ih tl2 htl
        exact ⟨a, by simp [getVal, hk, ha1], by simp [getVal, hk, ha2]⟩

theorem getVal_modVal_other {α : Type} (l l2 : List (String × α)) (k j : String)
    (f : α → α) (h : modVal l k f = .ok l2) (hj : j ≠ k) :
    getVal l2 j = getVal l j := by
  induction l generalizing l2 with
  | nil => simp [modVal] at h
  | cons hd tl ih =>
    obtain ⟨k2, w⟩ := hd
    by_cases hk : k2 = k
    · simp only [modVal, if_pos hk] at h
      obtain rfl : (k2, f w) :: tl = l2 := by simpa using h
      subst hk
      simp [getVal, Ne.symm hj]
    · simp only [modVal, if_neg hk] at h
      cases htl : modVal tl k f with
      | error e => rw [htl] at h; simp [Except.map] at h
      | ok tl2 =>
        rw [htl] at h
        obtain rfl : (k2, w) :: tl2 = l2 := by simpa [Except.map] using h
        by_cases hkj : k2 = j
        · simp [getVal, hkj]
        · simp [getVal, hkj, ih tl2 htl]

theorem dropFlagged_eq {α : Type} (files : List α) (flags : List Bool)
    (h : flags.length = files.length) :
    dropFlagged files flags =
      some (((files.zip flags).filter (fun p => !p.2)).map Prod.fst) := by
  induction files generalizing flags with
  | nil =>
    have : flags = [] := List.length_eq_zero.mp h
    subst this
    simp [dropFlagged]
  | cons f fs ih =>
    cases flags with
    | nil => simp at h
    | cons b bs =>
      have hlen : bs.length = fs.length := by simpa using h
      cases b with
      | true => simp [dropFlagged, ih bs hlen]
      | false => simp [dropFlagged, ih bs hlen]

theorem dropFlagged_sublist {α : Type} (files : List α) (flags : List Bool)
    (kept : List α) (h : dropFlagged files flags = some kept) :
    kept.Sublist files := by
  induction files generalizing flags kept with
  | nil =>
    have h3 : some ([] : List α) = some kept := h
    obtain rfl : kept = [] := (Option.some.inj h3).symm
    exact List.Sublist.refl []
  | cons f fs ih =>
    cases flags with
    | nil => simp [dropFlagged] at h
    | cons b bs =>
      simp only [dropFlagged] at h
      cases hd : dropFlagged fs bs with
      | none => rw [hd] at h; simp at h
      | some r =>
        rw [hd] at h
        have h5 : (if b then r else f :: r) = kept := Option.some.inj h
        cases b with
        | true =>
          have h6 : r = kept := by simpa using h5
          exact h6 ▸ (ih bs r hd).cons f
        | false =>
          have h6 : f :: r = kept := by simpa using h5
          exact h6 ▸ (ih bs r hd).cons₂ f

theorem collectList_no_sentinel : ∀ (d : List String) (cs : List FSEntry),
    ("__MACOSX") ∉ d → ∀ p ∈ collectList d cs, ("__MACOSX") ∉ p := by
  intro d cs
  induction d, cs using collectList.induct with
  | case1 x => intro _ p hp; simp [collectList] at hp
  | case2 d es ih =>
    intro hd
    simpa [collectList] using ih hd
  | case3 d n es hn ih =>
    intro hd p hp
    simp only [collectList, if_neg hn, List.mem_cons] at hp
    rcases hp with rfl | hp
    · simp only [List.mem_append, List.mem_singleton]
      rintro (h1 | h1)
      · exact hd h1
      · exact hn h1.symm
    · exact ih hd p hp
  | case4 d cs2 es ih =>
    intro hd
    simpa [collectList] using ih hd
  | case5 d n cs2 es hn ih1 ih2 =>
    intro hd p hp
    simp only [collectList, if_neg hn, List.mem_append] at hp
    rcases hp with hp | hp
    · refine ih1 ?_ p hp
      simp only [List.mem_append, List.mem_singleton]
      rintro (h1 | h1)
      · exact hd h1
      · exact hn h1.symm
    · exact ih2 hd p hp

/-! ## Concrete sample data -/

/-- A template with the eight node identifiers touched by
`update_workflow`, shaped like the become-image-api.json document
(node identifier to inputs field-set). -/
def sampleWorkflow : Workflow :=
  [(("22"), ⟨[(("image"), .str ("x.png"))]⟩),
   (("83"), ⟨[(("image"), .str ("y.png"))]⟩),
   (("2"), ⟨[(("positive"), .str ("p")), (("negative"), .str ("n"))]⟩),
   (("79"), ⟨[(("strength"), .num 1)]⟩),
   (("41"), ⟨[(("weight"), .num 1)]⟩),
   (("81"), ⟨[(("weight"), .num 1), (("noise"), .num 0)]⟩),
   (("75"), ⟨[(("denoise"), .num 1), (("seed"), .int 0), (("cfg"), .num 2)]⟩),
   (("85"), ⟨[(("multiply_by"), .int 2)]⟩)]

/-- The default request parameters of `predict`, assembled for
`update_workflow`. -/
def sampleParams : WParams :=
  { filename := ("image_of_face.png")
    image_to_become_filename := ("image_to_become.png")
    prompt := ("a person")
    negative_prompt := ("")
    number_of_images := 2
    prompt_strength := 2
    control_depth_strength := 8
    instant_id_strength := 1
    image_to_become_strength := 6
    image_to_become_noise := 3
    denoising_strength := 1
    seed := 42 }

/-- The graph produced by patching `sampleWorkflow` with
`sampleParams`. -/
def samplePatched : Workflow :=
  (update_workflow sampleWorkflow sampleParams).toOption.getD []

/-- A JPEG upload without EXIF data. -/
def sampleJpg : InputFile := { ext := (".jpg"), exif := none }

/-- A JPEG upload whose EXIF orientation is 3. -/
def sampleJpg3 : InputFile := { ext := (".jpg"), exif := some [(274, 3)] }

/-- An upload with an unsupported extension. -/
def sampleGif : InputFile := { ext := (".gif"), exif := none }

/-- A dirty pre-request state: queued engine work, a leftover input
file, and a stale output artifact. -/
def sampleState : SysState :=
  { queue := [7], inputDir := [("old.png")],
    outputTree := [FSEntry.file ("stale.png")], tempTree := [] }

/-- A request with both images present and all defaults. -/
def sampleReqBase : Req :=
  { image := some sampleJpg
    image_to_become := some sampleJpg
    prompt := ("a person")
    negative_prompt := ("")
    number_of_images := 2
    denoising_strength := 1
    prompt_strength := 2
    control_depth_strength := 8
    instant_id_strength := 1
    image_to_become_strength := 6
    image_to_become_noise := 3
    seed := none
    disable_safety_checker := false }

/-- The same request with the subject image absent. -/
def reqMissing : Req := { sampleReqBase with image := none }

/-- An environment with a benign classifier. -/
def sampleEnv : Env :=
  { template := sampleWorkflow
    safetyIn := fun _ => [false, false]
    safetyOut := fun fs => fs.map (fun _ => false)
    rngSeed := 42
    engineOutput := [FSEntry.file ("ComfyUI_00001_.png")] }

/-- An environment whose pre-screen flags the second input image. -/
def envFlag : Env := { sampleEnv with safetyIn := fun _ => [false, true] }

/-- An output tree holding a platform-archive sentinel directory. -/
def sampleTree : List FSEntry :=
  [FSEntry.file ("a.png"),
   FSEntry.dir ("__MACOSX") [FSEntry.file ("b.png")],
   FSEntry.dir ("sub") [FSEntry.file ("c.png")]]

deriving instance DecidableEq for Except

/-! ## Claim theorems -/

/-- C5: for every JPEG input, normalization applies a rotation of 180
degrees when the EXIF orientation value is 3, 270 when it is 6, 90 when
it is 8; any other orientation value, or absent EXIF data, leaves pixel
orientation unchanged; and the JPEG branch never fails. -/
theorem C5_jpeg_orientation (f : InputFile) (name : String)
    (h : strLower f.ext = (".jpg") ∨ strLower f.ext = (".jpeg")) :
    (handle_input_file f name).1 = .ok (name ++ (".png"))
  ∧ (handle_input_file f name).2 = [⟨name ++ (".png"), jpegRotation f.exif⟩]
  ∧ (orientationOf f.exif = some 3 → jpegRotation f.exif = 180)
  ∧ (orientationOf f.exif = some 6 → jpegRotation f.exif = 270)
  ∧ (orientationOf f.exif = some 8 → jpegRotation f.exif = 90)
  ∧ (∀ v, orientationOf f.exif = some v → v ≠ 3 → v ≠ 6 → v ≠ 8 →
      jpegRotation f.exif = 0)
  ∧ (orientationOf f.exif = none → jpegRotation f.exif = 0) := by
  refine ⟨?_, ?_, ?_, ?_, ?_, ?_, ?_⟩
  · simp only [handle_input_file]
    rw [if_pos h]
  · simp only [handle_input_file]
    rw [if_pos h]
  · intro hor; simp [jpegRotation, hor]
  · intro hor; simp [jpegRotation, hor]
  · intro hor; simp [jpegRotation, hor]
  · intro v hor h3 h6 h8; simp [jpegRotation, hor, h3, h6, h8]
  · intro hor; simp [jpegRotation, hor]

/-- Witness for C5 at a concrete JPEG with orientation 3. -/
theorem C5_witness :
    (strLower sampleJpg3.ext = (".jpg") ∨ strLower sampleJpg3.ext = (".jpeg"))
  ∧ (handle_input_file sampleJpg3 ("image_of_face")).1 =
      .ok (("image_of_face") ++ (".png"))
  ∧ (orientationOf sampleJpg3.exif = some 3 → jpegRotation sampleJpg3.exif = 180) :=
  ⟨Or.inl (by decide),
   (C5_jpeg_orientation sampleJpg3 ("image_of_face") (Or.inl (by decide))).1,
   (C5_jpeg_orientation sampleJpg3 ("image_of_face") (Or.inl (by decide))).2.2.1⟩

/-- C6: an input with an accepted extension yields exactly one written
file whose base name is the logical name, and that name is returned;
any other extension yields an `UnsupportedFormat` error and no written
file. -/
theorem C6_format_dispatch (f : InputFile) (name : String) :
    (strLower f.ext ∈ [(".jpg"), (".jpeg"), (".png"), (".webp")] →
      ∃ fn, (handle_input_file f name).1 = .ok fn
        ∧ (handle_input_file f name).2.map WriteRec.name = [fn]
        ∧ (fn = name ++ (".png") ∨ fn = name ++ (".webp")))
  ∧ (strLower f.ext ∉ [(".jpg"), (".jpeg"), (".png"), (".webp")] →
      (handle_input_file f name).1 =
        .error (("Unsupported file type: ") ++ strLower f.ext)
      ∧ (handle_input_file f name).2 = []) := by
  constructor
  · intro h
    simp only [List.mem_cons, List.not_mem_nil, or_false] at h
    rcases h with h | h | h | h
    · exact ⟨name ++ (".png"), by simp [handle_input_file, h],
        by simp [handle_input_file, h], Or.inl rfl⟩
    · exact ⟨name ++ (".png"), by simp [handle_input_file, h],
        by simp [handle_input_file, h], Or.inl rfl⟩
    · refine ⟨name ++ (".png"), ?_, ?_, Or.inl rfl⟩
      · simp [handle_input_file, h]
      · simp [handle_input_file, h]
    · refine ⟨name ++ (".webp"), ?_, ?_, Or.inr rfl⟩
      · simp [handle_input_file, h]
      · simp [handle_input_file, h]
  · intro h
    have h1 : strLower f.ext ≠ (".jpg") := fun e => h (by simp [e])
    have h2 : strLower f.ext ≠ (".jpeg") := fun e => h (by simp [e])
    have h3 : strLower f.ext ≠ (".png") := fun e => h (by simp [e])
    have h4 : strLower f.ext ≠ (".webp") := fun e => h (by simp [e])
    constructor
    · simp [handle_input_file, h1, h2, h3, h4]
    · simp [handle_input_file, h1, h2, h3, h4]

/-- Witness for C6 at a concrete accepted and a concrete rejected
extension. -/
theorem C6_witness :
    strLower sampleJpg.ext ∈ [(".jpg"), (".jpeg"), (".png"), (".webp")]
  ∧ (∃ fn, (handle_input_file sampleJpg ("image_of_face")).1 = .ok fn
      ∧ (handle_input_file sampleJpg ("image_of_face")).2.map WriteRec.name = [fn]
      ∧ (fn = ("image_of_face") ++ (".png") ∨ fn = ("image_of_face") ++ (".webp")))
  ∧ strLower sampleGif.ext ∉ [(".jpg"), (".jpeg"), (".png"), (".webp")]
  ∧ (handle_input_file sampleGif ("image_of_face")).1 =
      .error (("Unsupported file type: ") ++ strLower sampleGif.ext)
  ∧ (handle_input_file sampleGif ("image_of_face")).2 = [] :=
  ⟨by decide,
   (C6_format_dispatch sampleJpg ("image_of_face")).1 (by decide),
   by decide,
   ((C6_format_dispatch sampleGif ("image_of_face")).2 (by decide)).1,
   ((C6_format_dispatch sampleGif ("image_of_face")).2 (by decide)).2⟩

/-- C8: with no supplied seed the resolved seed lies in
[0, 2^32 - 1] (given that `random.randint(0, 2**32 - 1)` honours its
inclusive bounds, supplied as the oracle hypothesis); a supplied seed is
used exactly. -/
theorem C8_seed_resolution (r : Req) (env : Env)
    (h : env.rngSeed ≤ 2 ^ 32 - 1) :
    (r.seed = none → 0 ≤ resolveSeed r.seed env.rngSeed
      ∧ resolveSeed r.seed env.rngSeed ≤ 2 ^ 32 - 1)
  ∧ (∀ z, r.seed = some z → resolveSeed r.seed env.rngSeed = z) := by
  constructor
  · intro hn
    rw [hn]
    simp only [resolveSeed]
    constructor
    · exact Int.ofNat_nonneg _
    · have h2 : (env.rngSeed : ℤ) ≤ ((2 ^ 32 - 1 : ℕ) : ℤ) := Int.ofNat_le.mpr h
      calc (env.rngSeed : ℤ) ≤ ((2 ^ 32 - 1 : ℕ) : ℤ) := h2
        _ = 2 ^ 32 - 1 := by norm_num
  · intro z hz
    rw [hz]
    rfl

/-- Witness for C8 at a concrete request and environment. -/
theorem C8_witness :
    sampleEnv.rngSeed ≤ 2 ^ 32 - 1
  ∧ (sampleReqBase.seed = none →
      0 ≤ resolveSeed sampleReqBase.seed sampleEnv.rngSeed
      ∧ resolveSeed sampleReqBase.seed sampleEnv.rngSeed ≤ 2 ^ 32 - 1)
  ∧ (∀ z, sampleReqBase.seed = some z →
      resolveSeed sampleReqBase.seed sampleEnv.rngSeed = z) :=
  ⟨by decide,
   (C8_seed_resolution sampleReqBase sampleEnv (by decide)).1,
   (C8_seed_resolution sampleReqBase sampleEnv (by decide)).2⟩

/-- C9: with screening enabled, the post-generation screen never fails
the request (given the classifier contract that the flag list is
parallel to the file list): the result is the collected file list with
every flagged file removed, a subsequence of the original order. -/
theorem C9_post_screen {α : Type} (flags : List Bool) (files : List α)
    (h : flags.length = files.length) :
    postScreen false flags files =
      some (((files.zip flags).filter (fun p => !p.2)).map Prod.fst)
  ∧ (∀ kept, postScreen false flags files = some kept → kept.Sublist files) := by
  have hmain : postScreen false flags files =
      some (((files.zip flags).filter (fun p => !p.2)).map Prod.fst) := by
    by_cases ha : flags.any id
    · simp only [postScreen, Bool.false_eq_true, if_false, if_pos ha]
      exact dropFlagged_eq files flags h
    · simp only [postScreen, Bool.false_eq_true, if_false, if_neg ha]
      have hall : ∀ b ∈ flags, b = false := by
        intro b hb
        by_contra hbne
        exact ha (List.any_eq_true.mpr ⟨b, hb, by simpa using hbne⟩)
      have hfilter : (files.zip flags).filter (fun p => !p.2) = files.zip flags := by
        apply List.filter_eq_self.mpr
        intro p hp
        have : p.2 ∈ flags := (List.of_mem_zip hp).2
        simp [hall p.2 this]
      rw [hfilter, List.map_fst_zip files flags (le_of_eq h.symm)]
  refine ⟨hmain, ?_⟩
  intro kept hk
  rw [hmain] at hk
  have hk2 := Option.some.inj hk
  subst hk2
  by_cases ha : flags.any id
  · have hd : dropFlagged files flags =
        some (((files.zip flags).filter (fun p => !p.2)).map Prod.fst) :=
      dropFlagged_eq files flags h
    exact dropFlagged_sublist files flags _ hd
  · have hall : ∀ b ∈ flags, b = false := by
      intro b hb
      by_contra hbne
      exact ha (List.any_eq_true.mpr ⟨b, hb, by simpa using hbne⟩)
    have hfilter : (files.zip flags).filter (fun p => !p.2) = files.zip flags := by
      apply List.filter_eq_self.mpr
      intro p hp
      have : p.2 ∈ flags := (List.of_mem_zip hp).2
      simp [hall p.2 this]
    rw [hfilter, List.map_fst_zip files flags (le_of_eq h.symm)]

/-- Witness for C9: one flagged and one surviving file. -/
theorem C9_witness :
    ([true, false] : List Bool).length = ([[("a")], [("b")]] : List (List String)).length
  ∧ postScreen false [true, false] [[("a")], [("b")]] =
      some (((([[("a")], [("b")]] : List (List String)).zip [true, false]).filter
        (fun p => !p.2)).map Prod.fst) :=
  ⟨rfl, (C9_post_screen [true, false] [[("a")], [("b")]] rfl).1⟩

/-- C10: collection never returns a path containing the platform-archive
sentinel component (entries so named are skipped with their contents),
and repeated collection of an unchanged tree gives the same ordered
list. -/
theorem C10_collect (root : List String) (cs : List FSEntry)
    (h : ("__MACOSX") ∉ root) :
    (∀ p ∈ collectList root cs, ("__MACOSX") ∉ p)
  ∧ collectList root cs = collectList root cs :=
  ⟨collectList_no_sentinel root cs h, rfl⟩

/-- Witness for C10 on a tree holding a sentinel directory. -/
theorem C10_witness :
    ("__MACOSX") ∉ [OUTPUT_DIR]
  ∧ (∀ p ∈ collectList [OUTPUT_DIR] sampleTree, ("__MACOSX") ∉ p)
  ∧ collectList [OUTPUT_DIR] sampleTree = collectList [OUTPUT_DIR] sampleTree :=
  ⟨by decide,
   (C10_collect [OUTPUT_DIR] sampleTree (by decide)).1,
   (C10_collect [OUTPUT_DIR] sampleTree (by decide)).2⟩

/-- C1 counterexample: with the subject image absent the request is
rejected with the missing-input error, yet the engine queue has been
cleared and the workspace directories wiped and recreated before the
rejection — `predict` calls `cleanup()` (line 176) before the
missing-image check (line 178), so the rejection does not precede all
filesystem and engine side effects as claimed. -/
theorem C1_counterexample :
    (predict reqMissing sampleEnv sampleState).1 =
      .error (.valueError ("No image provided"))
  ∧ Event.clearQueue ∈ (predict reqMissing sampleEnv sampleState).2.2
  ∧ Event.resetDir OUTPUT_DIR ∈ (predict reqMissing sampleEnv sampleState).2.2
  ∧ Event.resetDir INPUT_DIR ∈ (predict reqMissing sampleEnv sampleState).2.2 := by
  refine ⟨?_, ?_, ?_, ?_⟩ <;> decide

/-- C1 (amended): a request with the subject image handle or the style
image handle absent is rejected with a `ValueError` naming exactly the
missing image(s), and the rejection happens before any input handling,
file write, or engine submission — the only side effects of the call
are the unconditional start-of-request cleanup (queue clear and the
three directory resets). -/
theorem C1_missing_input (r : Req) (env : Env) (s : SysState)
    (h : r.image = none ∨ r.image_to_become = none) :
    (predict r env s).1 =
      .error (.valueError (missingMsg r.image r.image_to_become))
  ∧ (predict r env s).2.2 = cleanupEvents := by
  cases himg : r.image with
  | none =>
    cases hib : r.image_to_become with
    | none => constructor <;> simp [predict, predictCore, cleanup, himg, hib]
    | some i => constructor <;> simp [predict, predictCore, cleanup, himg, hib]
  | some i =>
    cases hib : r.image_to_become with
    | none => constructor <;> simp [predict, predictCore, cleanup, himg, hib]
    | some j =>
      exfalso
      rcases h with h | h
      · rw [himg] at h; exact Option.noConfusion h
      · rw [hib] at h; exact Option.noConfusion h

/-- Witness for C1 at a concrete request missing the subject image. -/
theorem C1_witness :
    (reqMissing.image = none ∨ reqMissing.image_to_become = none)
  ∧ (predict reqMissing sampleEnv sampleState).1 =
      .error (.valueError (missingMsg reqMissing.image reqMissing.image_to_become))
  ∧ (predict reqMissing sampleEnv sampleState).2.2 = cleanupEvents :=
  ⟨Or.inl rfl,
   (C1_missing_input reqMissing sampleEnv sampleState (Or.inl rfl)).1,
   (C1_missing_input reqMissing sampleEnv sampleState (Or.inl rfl)).2⟩

/-- C2 counterexample: patching succeeds on the sample template, and the
graph object passed to the patcher is not left unchanged — its
post-call state (`update_workflow` returns the state of its mutated
argument) differs from the original template object. -/
theorem C2_counterexample :
    update_workflow sampleWorkflow sampleParams = .ok samplePatched
  ∧ samplePatched ≠ sampleWorkflow := by
  constructor
  · decide
  · decide

/-- C2 (amended): patching is deterministic — two invocations on
identical template and parameters yield structurally identical graphs.
(The original template object is, however, mutated in place by each
call; isolation across requests comes from re-parsing the immutable
template string for every request, not from the patcher.) -/
theorem C2_patch_deterministic (wf1 wf2 : Workflow) (p1 p2 : WParams)
    (h1 : wf1 = wf2) (h2 : p1 = p2) :
    update_workflow wf1 p1 = update_workflow wf2 p2 := by
  rw [h1, h2]

/-- Witness for C2 on the sample template and parameters. -/
theorem C2_witness :
    sampleWorkflow = sampleWorkflow
  ∧ sampleParams = sampleParams
  ∧ update_workflow sampleWorkflow sampleParams =
      update_workflow sampleWorkflow sampleParams :=
  ⟨rfl, rfl,
   C2_patch_deterministic sampleWorkflow sampleWorkflow sampleParams sampleParams rfl rfl⟩

/-- C4: every predict call begins with the cleanup side effects (engine
queue cleared, the three workspaces wiped and recreated) before any
input handling or engine interaction, and the entire outcome of a call
is independent of the pre-call state — so nothing left by a previous
request can reach a later request's collected result. -/
theorem C4_cleanup_every_request (r : Req) (env : Env) (s t : SysState) :
    predict r env s = predict r env t
  ∧ (predict r env s).2.2 =
      cleanupEvents ++ (predictCore r env cleanedState).2.2
  ∧ (∀ e ∈ cleanupEvents, (∀ n, e ≠ Event.writeInput n)
      ∧ (∀ g, e ≠ Event.engineLoadWorkflow g)
      ∧ e ≠ Event.engineConnect ∧ e ≠ Event.engineRunWorkflow) := by
  refine ⟨rfl, rfl, ?_⟩
  intro e he
  simp only [cleanupEvents, List.mem_cons, List.not_mem_nil, or_false] at he
  rcases he with rfl | rfl | rfl | rfl <;>
    exact And.intro (fun n h => nomatch h) (And.intro (fun g h => nomatch h)
      (And.intro (fun h => nomatch h) (fun h => nomatch h)))

/-- C3: with screening enabled, when the pre-generation screen flags at
least one of the two input images, predict fails with the NSFW input
error and the engine never receives a graph submission for the request:
no load, connect or run event appears in the trace. -/
theorem C3_unsafe_input (r : Req) (env : Env) (s : SysState) (i ib : InputFile)
    (fn1 fn2 : String) (w1 w2 : List WriteRec)
    (hi : r.image = some i) (hib : r.image_to_become = some ib)
    (h1 : handle_input_file i ("image_of_face") = (.ok fn1, w1))
    (h2 : handle_input_file ib ("image_to_become") = (.ok fn2, w2))
    (hd : r.disable_safety_checker = false)
    (hf : (env.safetyIn [i, ib]).any id = true) :
    (predict r env s).1 =
      .error (.valueError ("NSFW content detected in input images"))
  ∧ (∀ g, Event.engineLoadWorkflow g ∉ (predict r env s).2.2)
  ∧ Event.engineConnect ∉ (predict r env s).2.2
  ∧ Event.engineRunWorkflow ∉ (predict r env s).2.2 := by
  have hcore : predict r env s =
      (.error (.valueError ("NSFW content detected in input images")),
       { cleanedState with
         inputDir := (cleanedState.inputDir ++ w1.map WriteRec.name)
           ++ w2.map WriteRec.name },
       cleanupEvents ++ (w1.map (fun w => Event.writeInput w.name)
         ++ w2.map (fun w => Event.writeInput w.name))) := by
    simp only [predict, predictCore, cleanup, hi, hib, h1, h2, hd, hf,
      Bool.not_false, Bool.true_and, if_pos]
  rw [hcore]
  refine ⟨rfl, ?_, ?_, ?_⟩
  · intro g hg
    simp only [cleanupEvents, List.mem_append, List.mem_cons,
      List.not_mem_nil, or_false, List.mem_map] at hg
    rcases hg with (h3 | h3 | h3 | h3) | (⟨w, _, h3⟩ | ⟨w, _, h3⟩) <;> exact nomatch h3
  · intro hg
    simp only [cleanupEvents, List.mem_append, List.mem_cons,
      List.not_mem_nil, or_false, List.mem_map] at hg
    rcases hg with (h3 | h3 | h3 | h3) | (⟨w, _, h3⟩ | ⟨w, _, h3⟩) <;> exact nomatch h3
  · intro hg
    simp only [cleanupEvents, List.mem_append, List.mem_cons,
      List.not_mem_nil, or_false, List.mem_map] at hg
    rcases hg with (h3 | h3 | h3 | h3) | (⟨w, _, h3⟩ | ⟨w, _, h3⟩) <;> exact nomatch h3

/-- Witness for C3: a concrete request whose style image is flagged. -/
theorem C3_witness :
    (envFlag.safetyIn [sampleJpg, sampleJpg]).any id = true
  ∧ (predict sampleReqBase envFlag sampleState).1 =
      .error (.valueError ("NSFW content detected in input images"))
  ∧ Event.engineConnect ∉ (predict sampleReqBase envFlag sampleState).2.2 :=
  ⟨rfl,
   (C3_unsafe_input sampleReqBase envFlag sampleState sampleJpg sampleJpg
     ("image_of_face.png") ("image_to_become.png")
     [⟨("image_of_face.png"), 0⟩] [⟨("image_to_become.png"), 0⟩]
     rfl rfl (by decide) (by decide) rfl rfl).1,
   (C3_unsafe_input sampleReqBase envFlag sampleState sampleJpg sampleJpg
     ("image_of_face.png") ("image_to_become.png")
     [⟨("image_of_face.png"), 0⟩] [⟨("image_to_become.png"), 0⟩]
     rfl rfl (by decide) (by decide) rfl rfl).2.2.1⟩

/-- C7: patching writes the positive prompt with the fixed quality
suffix, the negative prompt with the fixed wrapper (user fragment
omitted when empty), and every numeric strength/weight parameter into
its node field unmodified. -/
theorem C7_patch_fields (wf wfF : Workflow) (p : WParams)
    (h : update_workflow wf p = .ok wfF) :
    getInput wfF ("2") ("positive") =
      some (.str (p.prompt ++ (", sharp, high quality")))
  ∧ (p.negative_prompt ≠ ("") →
      getInput wfF ("2") ("negative") =
        some (.str (("nsfw, nude, ") ++ p.negative_prompt
          ++ (", soft, blurry, ugly, broken, watermark"))))
  ∧ (p.negative_prompt = ("") →
      getInput wfF ("2") ("negative") =
        some (.str ("nsfw, nude, soft, blurry, ugly, broken, watermark")))
  ∧ getInput wfF ("79") ("strength") = some (.num p.control_depth_strength)
  ∧ getInput wfF ("41") ("weight") = some (.num p.instant_id_strength)
  ∧ getInput wfF ("81") ("weight") = some (.num p.image_to_become_strength)
  ∧ getInput wfF ("81") ("noise") = some (.num p.image_to_become_noise)
  ∧ getInput wfF ("75") ("denoise") = some (.num p.denoising_strength)
  ∧ getInput wfF ("75") ("cfg") = some (.num p.prompt_strength)
  ∧ getInput wfF ("75") ("seed") = some (.int p.seed)
  ∧ getInput wfF ("85") ("multiply_by") = some (.int p.number_of_images) := by
  unfold update_workflow at h
  obtain ⟨v1, h22, h⟩ := except_bind_ok h
  obtain ⟨v2, h83, h⟩ := except_bind_ok h
  obtain ⟨v3, h02, h⟩ := except_bind_ok h
  obtain ⟨v4, h79, h⟩ := except_bind_ok h
  obtain ⟨v5, h41, h⟩ := except_bind_ok h
  obtain ⟨v6, h81, h⟩ := except_bind_ok h
  obtain ⟨v7, h75, h85⟩ := except_bind_ok h
  have e85 : ∀ j, j ≠ ("85") → getVal wfF j = getVal v7 j :=
    fun j hj => getVal_modVal_other v7 wfF ("85") j _ h85 hj
  have e75 : ∀ j, j ≠ ("75") → getVal v7 j = getVal v6 j :=
    fun j hj => getVal_modVal_other v6 v7 ("75") j _ h75 hj
  have e81 : ∀ j, j ≠ ("81") → getVal v6 j = getVal v5 j :=
    fun j hj => getVal_modVal_other v5 v6 ("81") j _ h81 hj
  have e41 : ∀ j, j ≠ ("41") → getVal v5 j = getVal v4 j :=
    fun j hj => getVal_modVal_other v4 v5 ("41") j _ h41 hj
  have e79 : ∀ j, j ≠ ("79") → getVal v4 j = getVal v3 j :=
    fun j hj => getVal_modVal_other v3 v4 ("79") j _ h79 hj
  obtain ⟨n2, hn2src, hn2⟩ := getVal_modVal_self v2 v3 ("2") _ h02
  obtain ⟨n79, hn79src, hn79⟩ := getVal_modVal_self v3 v4 ("79") _ h79
  obtain ⟨n41, hn41src, hn41⟩ := getVal_modVal_self v4 v5 ("41") _ h41
  obtain ⟨n81, hn81src, hn81⟩ := getVal_modVal_self v5 v6 ("81") _ h81
  obtain ⟨n75, hn75src, hn75⟩ := getVal_modVal_self v6 v7 ("75") _ h75
  obtain ⟨n85, hn85src, hn85⟩ := getVal_modVal_self v7 wfF ("85") _ h85
  have hv2 : getVal wfF ("2") = some
      (⟨setVal (setVal n2.inputs ("positive")
          (.str (p.prompt ++ (", sharp, high quality"))))
        ("negative") (negText p.negative_prompt)⟩ : Node) := by
    rw [e85 _ (by decide), e75 _ (by decide), e81 _ (by decide),
      e41 _ (by decide), e79 _ (by decide)]
    exact hn2
  have hv79 : getVal wfF ("79") = some
      (⟨setVal n79.inputs ("strength") (.num p.control_depth_strength)⟩ : Node) := by
    rw [e85 _ (by decide), e75 _ (by decide), e81 _ (by decide),
      e41 _ (by decide)]
    exact hn79
  have hv41 : getVal wfF ("41") = some
      (⟨setVal n41.inputs ("weight") (.num p.instant_id_strength)⟩ : Node) := by
    rw [e85 _ (by decide), e75 _ (by decide), e81 _ (by decide)]
    exact hn41
  have hv81 : getVal wfF ("81") = some
      (⟨setVal (setVal n81.inputs ("weight") (.num p.image_to_become_strength))
        ("noise") (.num p.image_to_become_noise)⟩ : Node) := by
    rw [e85 _ (by decide), e75 _ (by decide)]
    exact hn81
  have hv75 : getVal wfF ("75") = some
      (⟨setVal (setVal (setVal n75.inputs ("denoise") (.num p.denoising_strength))
        ("seed") (.int p.seed)) ("cfg") (.num p.prompt_strength)⟩ : Node) := by
    rw [e85 _ (by decide)]
    exact hn75
  have hv85 : getVal wfF ("85") = some
      (⟨setVal n85.inputs ("multiply_by") (.int p.number_of_images)⟩ : Node) := by
    exact hn85
  refine ⟨?_, ?_, ?_, ?_, ?_, ?_, ?_, ?_, ?_, ?_, ?_⟩
  · simp only [getInput, hv2, Option.some_bind]
    rw [getVal_setVal_other _ _ _ _ (by decide), getVal_setVal_self]
  · intro hne
    simp only [getInput, hv2, Option.some_bind]
    rw [getVal_setVal_self]
    simp [negText, hne]
  · intro heq
    simp only [getInput, hv2, Option.some_bind]
    rw [getVal_setVal_self]
    simp [negText, heq]
  · simp only [getInput, hv79, Option.some_bind]
    rw [getVal_setVal_self]
  · simp only [getInput, hv41, Option.some_bind]
    rw [getVal_setVal_self]
  · simp only [getInput, hv81, Option.some_bind]
    rw [getVal_setVal_other _ _ _ _ (by decide), getVal_setVal_self]
  · simp only [getInput, hv81, Option.some_bind]
    rw [getVal_setVal_self]
  · simp only [getInput, hv75, Option.some_bind]
    rw [getVal_setVal_other _ _ _ _ (by decide),
      getVal_setVal_other _ _ _ _ (by decide), getVal_setVal_self]
  · simp only [getInput, hv75, Option.some_bind]
    rw [getVal_setVal_self]
  · simp only [getInput, hv75, Option.some_bind]
    rw [getVal_setVal_other _ _ _ _ (by decide), getVal_setVal_self]
  · simp only [getInput, hv85, Option.some_bind]
    rw [getVal_setVal_self]

/-- Witness for C7 on the sample template and parameters. -/
theorem C7_witness :
    update_workflow sampleWorkflow sampleParams = .ok samplePatched
  ∧ getInput samplePatched ("2") ("positive") =
      some (.str (sampleParams.prompt ++ (", sharp, high quality")))
  ∧ getInput samplePatched ("79") ("strength") =
      some (.num sampleParams.control_depth_strength) :=
  ⟨by decide,
   (C7_patch_fields sampleWorkflow samplePatched sampleParams (by decide)).1,
   (C7_patch_fields sampleWorkflow samplePatched sampleParams (by decide)).2.2.2.1⟩
